import Mathlib

/-!
Verification of the TrueSight Sprint 0 burndown-chart generators.

The repository holds two scripts, `generate_burndown.py` and
`generate_burndown_charts.py`, each embedding a fixed 15-day sprint dataset,
deriving an ideal linear burndown series, and saving PNG/PDF chart files.
This file shallowly embeds the numeric content of both scripts: the date and
task-count constants, the ideal-series calculator (numpy.linspace over exact
rationals), the completion index, the velocity and completion-rate figures,
and the list of file-save calls each script performs.
-/

/-- Calendar date in the proleptic Gregorian calendar, as CPython's
`datetime.date` values produced by `strptime(d, "%Y-%m-%d")`. -/
structure Date where
  year : ℕ
  month : ℕ
  day : ℕ
  deriving DecidableEq

/-- Gregorian leap-year test, as CPython's `_is_leap`. -/
def isLeapYear (y : ℕ) : Bool :=
  (y % 4 == 0 && y % 100 != 0) || y % 400 == 0

/-- Cumulative day counts before each month in a non-leap year
(CPython `_DAYS_BEFORE_MONTH`). -/
def daysBeforeMonthTable : List ℕ :=
  [0, 31, 59, 90, 120, 151, 181, 212, 243, 273, 304, 334]

/-- Number of days in year `y` preceding the first day of month `m`
(CPython `_days_before_month`). -/
def daysBeforeMonth (y m : ℕ) : ℕ :=
  daysBeforeMonthTable.getD (m - 1) 0 + (if 2 < m && isLeapYear y then 1 else 0)

/-- Number of days before January 1 of year `y` (CPython `_days_before_year`). -/
def daysBeforeYear (y : ℕ) : ℕ :=
  (y - 1) * 365 + (y - 1) / 4 - (y - 1) / 100 + (y - 1) / 400

/-- CPython `date.toordinal`: proleptic Gregorian day number, with
0001-01-01 as day 1. -/
def Date.toOrdinal (d : Date) : ℕ :=
  daysBeforeYear d.year + daysBeforeMonth d.year d.month + d.day

/-- CPython `date.weekday`: Monday = 0, ..., Saturday = 5, Sunday = 6. -/
def Date.weekday (d : Date) : ℕ :=
  (d.toOrdinal + 6) % 7

/-- `numpy.linspace start stop num` with the default `endpoint=True`, over
exact rationals: `num` evenly spaced samples from `start` to `stop`.
For `num = 1` numpy returns the single sample `[start]`; otherwise sample `i`
is `start + (stop - start) * i / (num - 1)` (empty when `num = 0`). -/
def linspace (start stop : ℚ) (num : ℕ) : List ℚ :=
  if num = 1 then [start]
  else (List.range num).map fun i : ℕ => start + (stop - start) * (i : ℚ) / ((num : ℚ) - 1)

/-- One `plt.savefig` call: the output path and the `dpi` argument when one
is passed explicitly. -/
structure SaveCall where
  path : String
  dpi : Option ℕ
  deriving DecidableEq

/-- The numeric content a run of a generator computes: the embedded dates,
the derived ideal series, the actual counts, the completion date, the
velocity figure when the script computes one, and the files it saves. -/
structure RunContent where
  dates : List Date
  ideal : List ℚ
  actual : List ℤ
  completionDate : Date
  velocity : Option ℚ
  saves : List SaveCall

/-- The PNG (at 300 DPI) and PDF save pair for one chart purpose, under the
documentation-images directory `docs/images/charts/`. -/
def pngPdfPair (base : String) : List SaveCall :=
  [⟨"docs/images/charts/" ++ base ++ ".png", some 300⟩,
   ⟨"docs/images/charts/" ++ base ++ ".pdf", none⟩]

namespace generate_burndown

/-- Lines 19-24 of `generate_burndown.py`: the fifteen sprint dates. -/
def dates_str : List String :=
  ["2026-02-04", "2026-02-05", "2026-02-06", "2026-02-07",
   "2026-02-08", "2026-02-09", "2026-02-10", "2026-02-11",
   "2026-02-12", "2026-02-13", "2026-02-14", "2026-02-15",
   "2026-02-16", "2026-02-17", "2026-02-18"]

/-- Line 27: actual remaining tasks each day. -/
def actual_remaining : List ℤ :=
  [4, 3, 3, 3, 3, 3, 2, 2, 1, 1, 1, 0, 0, 0, 0]

/-- Line 30: `dates_str` parsed by `strptime(d, "%Y-%m-%d")`. -/
def dates : List Date :=
  [⟨2026, 2, 4⟩, ⟨2026, 2, 5⟩, ⟨2026, 2, 6⟩, ⟨2026, 2, 7⟩,
   ⟨2026, 2, 8⟩, ⟨2026, 2, 9⟩, ⟨2026, 2, 10⟩, ⟨2026, 2, 11⟩,
   ⟨2026, 2, 12⟩, ⟨2026, 2, 13⟩, ⟨2026, 2, 14⟩, ⟨2026, 2, 15⟩,
   ⟨2026, 2, 16⟩, ⟨2026, 2, 17⟩, ⟨2026, 2, 18⟩]

/-- Line 33: `ideal_burndown = np.linspace(4, 0, len(dates))`. -/
def ideal_burndown : List ℚ := linspace 4 0 dates.length

/-- Line 59: `completion_date = dates[11]`, used for both the vertical
completion line (axvline) and the star completion marker (scatter). -/
def completion_date : Date := dates.getD 11 ⟨1, 1, 1⟩

/-- Line 68 title figure: completed tasks reported in the chart title. -/
def reported_completed : ℕ := 4

/-- Line 68 title figure: total tasks reported in the chart title. -/
def reported_total : ℕ := 4

/-- Line 68 title figure: the percentage reported in the chart title. -/
def reported_rate : ℕ := 100

/-- Lines 108-109: the two savefig calls of `create_sprint0_burndown`. -/
def burndown_saves : List SaveCall :=
  [⟨"docs/images/charts/sprint0_burndown.png", some 300⟩,
   ⟨"docs/images/charts/sprint0_burndown.pdf", none⟩]

/-- Lines 150-151: the two savefig calls of `create_velocity_chart`. -/
def velocity_saves : List SaveCall :=
  [⟨"docs/images/charts/velocity_sprint0.png", some 300⟩,
   ⟨"docs/images/charts/velocity_sprint0.pdf", none⟩]

/-- All files a run of the script writes, in order. -/
def all_saves : List SaveCall := burndown_saves ++ velocity_saves

/-- The numeric content one run of `generate_burndown.py` computes. The
script takes no input: every field is built from the embedded constants. -/
def run (_u : Unit) : RunContent :=
  ⟨dates, ideal_burndown, actual_remaining, completion_date, none, all_saves⟩

end generate_burndown

namespace generate_burndown_charts

/-- Lines 13-15 of `generate_burndown_charts.py`: the fifteen sprint dates. -/
def dates_str : List String :=
  ["2026-02-04", "2026-02-05", "2026-02-06", "2026-02-07", "2026-02-08",
   "2026-02-09", "2026-02-10", "2026-02-11", "2026-02-12", "2026-02-13",
   "2026-02-14", "2026-02-15", "2026-02-16", "2026-02-17", "2026-02-18"]

/-- Line 17: actual remaining tasks each day. -/
def actual_remaining : List ℤ :=
  [4, 3, 3, 3, 3, 3, 2, 2, 1, 1, 1, 0, 0, 0, 0]

/-- Line 20: `dates_str` parsed by `strptime(d, "%Y-%m-%d")`. -/
def dates : List Date :=
  [⟨2026, 2, 4⟩, ⟨2026, 2, 5⟩, ⟨2026, 2, 6⟩, ⟨2026, 2, 7⟩, ⟨2026, 2, 8⟩,
   ⟨2026, 2, 9⟩, ⟨2026, 2, 10⟩, ⟨2026, 2, 11⟩, ⟨2026, 2, 12⟩, ⟨2026, 2, 13⟩,
   ⟨2026, 2, 14⟩, ⟨2026, 2, 15⟩, ⟨2026, 2, 16⟩, ⟨2026, 2, 17⟩, ⟨2026, 2, 18⟩]

/-- Line 23: `ideal_remaining = np.linspace(4, 0, len(dates))`. -/
def ideal_remaining : List ℚ := linspace 4 0 dates.length

/-- Line 26: `sprint_start = dates[0]`. -/
def sprint_start : Date := dates.getD 0 ⟨1, 1, 1⟩

/-- Line 27: `sprint_end = dates[-1]`. -/
def sprint_end : Date := dates.getLastD ⟨1, 1, 1⟩

/-- Line 28: `completion_date = dates[11]`. -/
def completion_date : Date := dates.getD 11 ⟨1, 1, 1⟩

/-- Line 29: `total_tasks = 4`. -/
def total_tasks : ℕ := 4

/-- Line 30: `completed_tasks = 4`. -/
def completed_tasks : ℕ := 4

/-- Line 31: `completion_rate = 100`. -/
def completion_rate : ℕ := 100

/-- Line 34: `sprint_days = (sprint_end - sprint_start).days + 1`; the
timedelta day count is the difference of the dates' ordinals. -/
def sprint_days : ℕ := (sprint_end.toOrdinal - sprint_start.toOrdinal) + 1

/-- Line 35: `velocity = total_tasks / sprint_days` (true division). -/
def velocity : ℚ := (total_tasks : ℚ) / (sprint_days : ℚ)

/-- Line 125: `completion_index = 11` in `create_enhanced_burndown`. -/
def completion_index : ℕ := 11

/-- Line 126: the enhanced chart draws its green-star completion marker at
`dates[completion_index]`. -/
def enhanced_marker_date : Date := dates.getD completion_index ⟨1, 1, 1⟩

/-- Line 135: the enhanced chart draws its vertical completion line at
`dates[completion_index]`. -/
def enhanced_vline_date : Date := dates.getD completion_index ⟨1, 1, 1⟩

/-- Lines 102-104: the dates the enhanced chart shades as weekends, i.e.
those with `date.weekday()` in `[5, 6]` (Saturday or Sunday). -/
def weekend_shaded_dates : List Date :=
  dates.filter fun d => d.weekday == 5 || d.weekday == 6

/-- Lines 85-88: the two savefig calls of `create_standard_burndown`. -/
def standard_saves : List SaveCall :=
  [⟨"docs/images/charts/sprint0_burndown.png", some 300⟩,
   ⟨"docs/images/charts/sprint0_burndown.pdf", none⟩]

/-- Lines 184-187: the two savefig calls of `create_enhanced_burndown`. -/
def enhanced_saves : List SaveCall :=
  [⟨"docs/images/charts/sprint0_burndown_enhanced.png", some 300⟩,
   ⟨"docs/images/charts/sprint0_burndown_enhanced.pdf", none⟩]

/-- All files a run of the script writes, in order (`main` calls the
standard renderer and then the enhanced one). -/
def all_saves : List SaveCall := standard_saves ++ enhanced_saves

/-- The numeric content one run of `generate_burndown_charts.py` computes.
The script takes no input: every field is built from the module constants. -/
def run (_u : Unit) : RunContent :=
  ⟨dates, ideal_remaining, actual_remaining, completion_date, some velocity, all_saves⟩

end generate_burndown_charts

theorem linspace_length (start stop : ℚ) (num : ℕ) :
    (linspace start stop num).length = num := by
  unfold linspace
  split
  · simp [*]
  · rw [List.length_map, List.length_range]

theorem linspace_getElem? (start stop : ℚ) (num : ℕ) (h1 : num ≠ 1)
    (i : ℕ) (hi : i < num) :
    (linspace start stop num)[i]? =
      some (start + (stop - start) * (i : ℚ) / ((num : ℚ) - 1)) := by
  unfold linspace
  rw [if_neg h1, List.getElem?_map, List.getElem?_range hi]
  rfl

theorem ideal_remaining_eq :
    generate_burndown_charts.ideal_remaining =
      [4, 26/7, 24/7, 22/7, 20/7, 18/7, 16/7, 2, 12/7, 10/7, 8/7, 6/7, 4/7, 2/7, 0] := by
  have hr : List.range 15 = [0, 1, 2, 3, 4, 5, 6, 7, 8, 9, 10, 11, 12, 13, 14] := by decide
  show linspace 4 0 15 = _
  unfold linspace
  rw [if_neg (by norm_num), hr]
  simp only [List.map_cons, List.map_nil]
  norm_num

/-- Claim C1: for the fixed dataset of 15 dates with remaining-task counts
starting at 4, the derived ideal-progress series has exactly 15 points, its
first element is 4, its last element is 0, and it is evenly spaced: every
pair of consecutive elements differs by the same amount -4/14. -/
theorem ideal_series_fixed_dataset :
    generate_burndown_charts.ideal_remaining.length = 15 ∧
    generate_burndown_charts.ideal_remaining.head? = some 4 ∧
    generate_burndown_charts.ideal_remaining.getLast? = some 0 ∧
    List.zipWith (fun a b => b - a) generate_burndown_charts.ideal_remaining
        generate_burndown_charts.ideal_remaining.tail
      = List.replicate 14 (-(4 / 14) : ℚ) ∧
    generate_burndown.ideal_burndown = generate_burndown_charts.ideal_remaining := by
  refine ⟨?_, ?_, ?_, ?_, rfl⟩ <;> rw [ideal_remaining_eq]
  · rfl
  · rfl
  · simp
  · simp only [List.tail_cons, List.zipWith_cons_cons, List.zipWith_nil_right, List.replicate]
    norm_num

/-- Claim C2 counterexample: at starting count 4 and one sample point, an
input the claim covers (n = 1 ≥ 1), the calculator returns the single point
4, so the sequence does not go down to zero: its last element is 4, not 0. -/
theorem ideal_series_single_point_counterexample :
    (linspace 4 0 1).length = 1 ∧ (linspace 4 0 1).getLast? = some 4 ∧
    (linspace 4 0 1).getLast? ≠ some 0 := by
  refine ⟨rfl, rfl, ?_⟩
  show some (4 : ℚ) ≠ some 0
  simp only [ne_eq, Option.some.injEq]
  norm_num

/-- Claim C2, amended: for every starting count c and every number of sample
points n with n ≥ 2, the calculator returns a length-n arithmetic sequence
from c to 0, evenly spaced: every consecutive pair drops by the constant
c/(n-1), which is nonnegative (so the sequence descends) whenever c ≥ 0.
The degenerate inputs, exercised by no caller, are n = 0 (empty output)
and n = 1 (the single point c, which is not 0 unless c = 0). -/
theorem ideal_series_calculator_amended (c : ℚ) (n : ℕ) (hn : 2 ≤ n) :
    (linspace c 0 n).length = n ∧
    (linspace c 0 n)[0]? = some c ∧
    (linspace c 0 n)[n - 1]? = some 0 ∧
    (∀ i : ℕ, i + 1 < n → ∀ a b : ℚ, (linspace c 0 n)[i]? = some a →
      (linspace c 0 n)[i + 1]? = some b → a - b = c / ((n : ℚ) - 1)) ∧
    (0 ≤ c → 0 ≤ c / ((n : ℚ) - 1)) := by
  have h1 : n ≠ 1 := by omega
  have h2 : (2 : ℚ) ≤ (n : ℚ) := by exact_mod_cast hn
  have hd : ((n : ℚ) - 1) ≠ 0 := by linarith
  refine ⟨linspace_length c 0 n, ?_, ?_, ?_, ?_⟩
  · rw [linspace_getElem? c 0 n h1 0 (by omega)]
    norm_num
  · rw [linspace_getElem? c 0 n h1 (n - 1) (by omega)]
    have hc : ((n - 1 : ℕ) : ℚ) = (n : ℚ) - 1 := by
      have h3 : 1 ≤ n := by omega
      push_cast [h3]
      ring
    rw [hc]
    congr 1
    field_simp
  · intro i hi a b ha hb
    rw [linspace_getElem? c 0 n h1 i (by omega)] at ha
    rw [linspace_getElem? c 0 n h1 (i + 1) hi] at hb
    have ha2 := Option.some.inj ha
    have hb2 := Option.some.inj hb
    rw [← ha2, ← hb2]
    push_cast
    field_simp
    ring
  · intro hc0
    apply div_nonneg hc0
    linarith

/-- Witness for the amended claim C2 at the inputs the scripts use, a
starting count of 4 and 15 sample points. -/
theorem ideal_series_calculator_amended_witness :
    2 ≤ 15 ∧
    ((linspace 4 0 15).length = 15 ∧
     (linspace 4 0 15)[0]? = some 4 ∧
     (linspace 4 0 15)[15 - 1]? = some 0 ∧
     (∀ i : ℕ, i + 1 < 15 → ∀ a b : ℚ, (linspace 4 0 15)[i]? = some a →
       (linspace 4 0 15)[i + 1]? = some b → a - b = 4 / ((15 : ℚ) - 1)) ∧
     (0 ≤ (4 : ℚ) → 0 ≤ (4 : ℚ) / ((15 : ℚ) - 1))) :=
  ⟨by norm_num, ideal_series_calculator_amended 4 15 (by norm_num)⟩

/-- Claim C3: the hardcoded sprint record satisfies the data-model
invariant: in both scripts the dates are strictly increasing, and the
actual-remaining counts are the non-negative, monotonically non-increasing
sequence 4,3,3,3,3,3,2,2,1,1,1,0,0,0,0. -/
theorem sprint_record_invariant :
    List.Chain' (fun a b : Date => a.toOrdinal < b.toOrdinal) generate_burndown_charts.dates ∧
    List.Chain' (fun a b : Date => a.toOrdinal < b.toOrdinal) generate_burndown.dates ∧
    generate_burndown_charts.actual_remaining = [4, 3, 3, 3, 3, 3, 2, 2, 1, 1, 1, 0, 0, 0, 0] ∧
    generate_burndown.actual_remaining = generate_burndown_charts.actual_remaining ∧
    (∀ x ∈ generate_burndown_charts.actual_remaining, 0 ≤ x) ∧
    List.Chain' (fun a b : ℤ => b ≤ a) generate_burndown_charts.actual_remaining := by
  refine ⟨?_, ?_, by decide, by decide, by decide, ?_⟩
  · simp only [generate_burndown_charts.dates, List.chain'_cons, List.chain'_singleton, and_true]
    decide
  · simp only [generate_burndown.dates, List.chain'_cons, List.chain'_singleton, and_true]
    decide
  · simp only [generate_burndown_charts.actual_remaining, List.chain'_cons,
      List.chain'_singleton, and_true]
    decide

/-- Claim C4: the first index at which the actual-remaining count is 0 is
index 11, whose date is 2026-02-15, and both chart generators place the
completion marker and the vertical completion line at exactly that date. -/
theorem completion_index_eleven :
    generate_burndown.actual_remaining.findIdx (fun x => x == 0) = 11 ∧
    generate_burndown_charts.actual_remaining.findIdx (fun x => x == 0) = 11 ∧
    generate_burndown.completion_date = generate_burndown.dates.getD 11 ⟨1, 1, 1⟩ ∧
    generate_burndown.completion_date = ⟨2026, 2, 15⟩ ∧
    generate_burndown_charts.completion_index = 11 ∧
    generate_burndown_charts.enhanced_marker_date = ⟨2026, 2, 15⟩ ∧
    generate_burndown_charts.enhanced_vline_date = ⟨2026, 2, 15⟩ ∧
    generate_burndown_charts.dates.getD 11 ⟨1, 1, 1⟩ = ⟨2026, 2, 15⟩ := by
  decide

/-- Claim C5: the velocity equals total tasks over the days spanned: the
divisor is last date minus first date in days plus one, which is 15 here,
the velocity is exactly 4/15, and it rounds to 0.27 tasks/day (the title
prints it with two decimals). -/
theorem velocity_value :
    generate_burndown_charts.sprint_days = 15 ∧
    generate_burndown_charts.velocity = 4 / 15 ∧
    round (generate_burndown_charts.velocity * 100) = 27 := by
  have hd : generate_burndown_charts.sprint_days = 15 := by decide
  have hv : generate_burndown_charts.velocity = 4 / 15 := by
    unfold generate_burndown_charts.velocity
    rw [hd]
    norm_num [generate_burndown_charts.total_tasks]
  refine ⟨hd, hv, ?_⟩
  rw [hv]
  norm_num [round_eq]

/-- Claim C6: the completion rate each script reports equals completed
tasks divided by total tasks times 100, which is 100 percent for the 4
completed out of 4 total tasks of this dataset. -/
theorem completion_rate_formula :
    (generate_burndown_charts.completion_rate : ℚ) =
      (generate_burndown_charts.completed_tasks : ℚ) /
        (generate_burndown_charts.total_tasks : ℚ) * 100 ∧
    generate_burndown_charts.completion_rate = 100 ∧
    (generate_burndown.reported_rate : ℚ) =
      (generate_burndown.reported_completed : ℚ) /
        (generate_burndown.reported_total : ℚ) * 100 ∧
    generate_burndown.reported_completed = 4 ∧ generate_burndown.reported_total = 4 := by
  refine ⟨?_, rfl, ?_, rfl, rfl⟩ <;>
    norm_num [generate_burndown_charts.completion_rate,
      generate_burndown_charts.completed_tasks, generate_burndown_charts.total_tasks,
      generate_burndown.reported_rate, generate_burndown.reported_completed,
      generate_burndown.reported_total]

/-- Claim C7: every chart either script produces is written as a PNG at 300
DPI plus a PDF pair under docs/images/charts/, named by chart purpose
(sprint0_burndown and velocity_sprint0 for the first script,
sprint0_burndown and sprint0_burndown_enhanced for the second), and each
script writes exactly those files and no others. -/
theorem output_paths_png_pdf_pairs :
    generate_burndown.all_saves =
      pngPdfPair "sprint0_burndown" ++ pngPdfPair "velocity_sprint0" ∧
    generate_burndown_charts.all_saves =
      pngPdfPair "sprint0_burndown" ++ pngPdfPair "sprint0_burndown_enhanced" := by
  decide

/-- Claim C8: each generator is deterministic: it takes no input beyond its
embedded constants, so any two runs compute identical numeric content
(dates, ideal series, actual counts, completion date, velocity, and the
list of files saved). -/
theorem generator_deterministic :
    (∀ u v : Unit, generate_burndown_charts.run u = generate_burndown_charts.run v) ∧
    (∀ u v : Unit, generate_burndown.run u = generate_burndown.run v) :=
  ⟨fun _ _ => rfl, fun _ _ => rfl⟩

/-- Claim C9: the two scripts are semantically equivalent up to cosmetic
parameters: they embed the same date sequence and actual-remaining
sequence, derive the same ideal series (linspace from 4 to 0 over 15
points), use the same completion index 11, and write the standard burndown
chart to the same pair of output paths. -/
theorem scripts_equivalent :
    generate_burndown.dates_str = generate_burndown_charts.dates_str ∧
    generate_burndown.dates = generate_burndown_charts.dates ∧
    generate_burndown.actual_remaining = generate_burndown_charts.actual_remaining ∧
    generate_burndown.ideal_burndown = generate_burndown_charts.ideal_remaining ∧
    generate_burndown.ideal_burndown = linspace 4 0 15 ∧
    generate_burndown.completion_date = generate_burndown_charts.completion_date ∧
    generate_burndown_charts.completion_index = 11 ∧
    generate_burndown.burndown_saves = generate_burndown_charts.standard_saves :=
  ⟨by decide, by decide, by decide, rfl, rfl, by decide, rfl, by decide⟩

/-- Claim C10: the enhanced chart shades exactly the dates whose weekday is
Saturday or Sunday, which for this dataset are 2026-02-07, 2026-02-08,
2026-02-14 and 2026-02-15, so the completion-marker date at index 11
(2026-02-15) itself falls on a shaded weekend day. -/
theorem weekend_shading :
    generate_burndown_charts.weekend_shaded_dates =
      [⟨2026, 2, 7⟩, ⟨2026, 2, 8⟩, ⟨2026, 2, 14⟩, ⟨2026, 2, 15⟩] ∧
    generate_burndown_charts.enhanced_marker_date ∈
      generate_burndown_charts.weekend_shaded_dates := by
  decide
